import Mathlib

/-!
Shallow embedding of `switch-router-middleware` (src/src/lib.rs).

The repository is a single glue component: a `RouteMiddleware` that sits
between an external Router (`switch_router::SwitchRouteService`, held in a
`RefCell`) and a Redux-style Store (`reactive_state`).  The middleware
intercepts route actions in `on_reduce`, mutates the Router through
non-blocking `try_borrow_mut` accesses that degrade to logged no-ops on
failure, and registers a callback on the Router that dispatches
`BrowserChangeRoute` notifications back into the Store.

Modelling decisions:
* The `RefCell`'s runtime mutable-borrow state is an explicit `borrowed`
  flag on the middleware state; `try_borrow_mut` succeeds exactly when the
  flag is off.  All access within one middleware method is scoped, so the
  flag is unchanged by the methods themselves; a `true` flag models an
  outstanding reentrant borrow held by a caller.
* `error!` logging is modelled as a list of emitted log lines.
* The external Router and Store collaborators are not in this repository;
  they are modelled from the spec (each such definition says so in its doc
  comment).
* `on_reduce` receives the `reduce` continuation as a function and records
  the argument of every invocation of it, so that call counts and forwarded
  actions are observable.
-/

set_option autoImplicit false

namespace SwitchRouterMiddleware

universe u v w

variable {SR : Type u} {A : Type v} {V : Type w} {ρ : Type w}

/-- The `RouteAction<SR>` enum (src/src/lib.rs lines 148-155). -/
inductive RouteAction (SR : Type u) where
  | Back
  | ChangeRoute (route : SR)
  | BrowserChangeRoute (route : SR)
  | PollBrowserRoute
  deriving DecidableEq, Repr

/-- Modelled from the spec: the external Router collaborator
(`switch_router::SwitchRouteService`, not part of this repository).  It owns
the current navigation location and the navigation history, and holds at most
one registered callback (spec section 6). -/
structure RouterState (SR : Type u) where
  current : SR
  history : List SR
  registered : Bool
  deriving DecidableEq, Repr

/-- Modelled from the spec: `Router.get_route` reads the current route. -/
def RouterState.get_route (self : RouterState SR) : SR :=
  self.current

/-- Modelled from the spec: `Router.set_route` navigates to the given route;
the previous location is pushed onto the history so that `back` can pop it. -/
def RouterState.set_route (self : RouterState SR) (route : SR) : RouterState SR :=
  { self with current := route, history := self.current :: self.history }

/-- Modelled from the spec: `Router.back` pops the most recent history entry
and returns the resulting route, or returns no route when no history exists. -/
def RouterState.back (self : RouterState SR) : Option SR × RouterState SR :=
  match self.history with
  | [] => (none, self)
  | r :: rest => (some r, { self with current := r, history := rest })

/-- Modelled from the spec: `Router.register_callback` records the listener. -/
def RouterState.register_callback (self : RouterState SR) : RouterState SR :=
  { self with registered := true }

/-- The `IsRouteAction<SR>` trait (src/src/lib.rs lines 171-176): a host
`Action` type convertible from `RouteAction<SR>` (the `From` supertrait,
`ofRouteAction`) and queryable for the route-action variant it wraps
(`route_action`). -/
structure IsRouteAction (SR : Type u) (A : Type v) where
  ofRouteAction : RouteAction SR → A
  route_action : A → Option (RouteAction SR)

/-- The `RouteMiddleware` struct (src/src/lib.rs lines 17-26): it owns the
Router inside a `RefCell` (`route_service`).  `borrowed` is that `RefCell`'s
runtime mutable-borrow flag, consulted by every `try_borrow_mut`.  The owned
`_callback` handle is reflected by the Router's `registered` flag together
with the standalone `callback` function below. -/
structure RouteMiddleware (SR : Type u) where
  route_service : RouterState SR
  borrowed : Bool
  deriving DecidableEq, Repr

/-- Log line of src/src/lib.rs line 70 and line 81. -/
def borrowErrorLog : String :=
  "Unable to borrow route_service for RouteMiddleware"

/-- `RouteMiddleware::set_route` (src/src/lib.rs lines 64-73): try to borrow
the Router mutably; on success navigate to the route, on failure log and do
nothing.  Returns the new state and the emitted log lines. -/
def RouteMiddleware.set_route (self : RouteMiddleware SR) (switch_route : SR) :
    RouteMiddleware SR × List String :=
  if self.borrowed then
    (self, [borrowErrorLog])
  else
    ({ self with route_service := self.route_service.set_route switch_route }, [])

/-- `RouteMiddleware::back` (src/src/lib.rs lines 75-85): try to borrow the
Router mutably; on success pop the history and return the popped route, on
failure log and return `none`.  Returns the popped route, the new state and
the emitted log lines. -/
def RouteMiddleware.back (self : RouteMiddleware SR) :
    Option SR × RouteMiddleware SR × List String :=
  if self.borrowed then
    (none, self, [borrowErrorLog])
  else
    ((self.route_service.back).1,
      { self with route_service := (self.route_service.back).2 }, [])

/-- Outcome of one `on_reduce` call: the final middleware state, the value
returned to the Store, the argument of every invocation of the `reduce`
continuation (in order), and the emitted log lines. -/
structure ReduceOutcome (SR : Type u) (A : Type v) (ρ : Type w) where
  state : RouteMiddleware SR
  result : ρ
  reduceCalls : List (Option A)
  logs : List String

/-- `RouteMiddleware::on_reduce` (src/src/lib.rs lines 98-134), the dispatch
interception state machine.  `Back` runs `back` and forwards `none`;
`ChangeRoute route` runs `set_route route` and falls through to forwarding the
original action; `PollBrowserRoute` tries to borrow the Router and on success
forwards the replacement `BrowserChangeRoute (get_route)`, on failure logs
(src/src/lib.rs line 126) and falls through to the original action; every
other case falls through to forwarding the incoming action unchanged. -/
def on_reduce (inst : IsRouteAction SR A) (self : RouteMiddleware SR)
    (action : Option A) (reduce : Option A → ρ) : ReduceOutcome SR A ρ :=
  match action with
  | some a =>
    match inst.route_action a with
    | some RouteAction.Back =>
      let b := self.back
      ⟨b.2.1, reduce none, [none], b.2.2⟩
    | some (RouteAction.ChangeRoute route) =>
      let s := self.set_route route
      ⟨s.1, reduce (some a), [some a], s.2⟩
    | some RouteAction.PollBrowserRoute =>
      if self.borrowed then
        ⟨self, reduce (some a), [some a], ["Cannot borrow mut self.router"]⟩
      else
        let route := self.route_service.get_route
        let a' := some (inst.ofRouteAction (RouteAction.BrowserChangeRoute route))
        ⟨self, reduce a', [a'], []⟩
    | some (RouteAction.BrowserChangeRoute _) =>
      ⟨self, reduce (some a), [some a], []⟩
    | none =>
      ⟨self, reduce (some a), [some a], []⟩
  | none => ⟨self, reduce none, [none], []⟩

/-- Modelled from the spec: the Store collaborator (`reactive_state`, not part
of this repository) reduced to its dispatch trace: `Store::dispatch` is
fire-and-forget injection of an action, recorded in order. -/
structure StoreState (A : Type v) where
  dispatched : List A
  deriving DecidableEq, Repr

/-- Modelled from the spec: `Store::dispatch` appends the action to the trace. -/
def StoreState.dispatch (self : StoreState A) (a : A) : StoreState A :=
  ⟨self.dispatched ++ [a]⟩

/-- The closure registered by `RouteMiddleware::new` (src/src/lib.rs lines
39-42): `move |route| store.dispatch(RouteAction::BrowserChangeRoute(route))`,
the dispatch converting through the Action type's `From` instance. -/
def callback (inst : IsRouteAction SR A) (store : StoreState A) (route : SR) :
    StoreState A :=
  store.dispatch (inst.ofRouteAction (RouteAction.BrowserChangeRoute route))

/-- Outcome of `RouteMiddleware::new`: the constructed middleware, whether the
returned struct owns the callback handle (the `_callback` field), and the
emitted log lines. -/
structure NewOutcome (SR : Type u) where
  middleware : RouteMiddleware SR
  ownsCallback : Bool
  logs : List String

/-- `RouteMiddleware::new` (src/src/lib.rs lines 37-62): wrap the route
service in a `RefCell`, build the callback, then `try_borrow_mut` to register
it — on failure log (line 50) and continue.  Either way the returned struct
stores the callback in its `_callback` field.  `borrowedAtRegistration` is the
`RefCell`'s runtime mutable-borrow state at the `try_borrow_mut` call on line
45; the borrow taken there is scoped, so the returned state is unborrowed. -/
def RouteMiddleware.new (route_service : RouterState SR)
    (borrowedAtRegistration : Bool) : NewOutcome SR :=
  if borrowedAtRegistration then
    ⟨⟨route_service, false⟩, true, ["Unable to register callback"]⟩
  else
    ⟨⟨route_service.register_callback, false⟩, true, []⟩

/-- Modelled from the spec: dropping the middleware drops its `_callback`
handle, and dropping a `switch_router::Callback` removes the listener from the
route service (doc comment at src/src/lib.rs lines 19-21; the `Drop`
implementation lives in the external `switch_router` crate). -/
def RouteMiddleware.drop (self : RouteMiddleware SR) : RouteMiddleware SR :=
  { self with route_service := { self.route_service with registered := false } }

/-- Modelled from the spec: the Router delivers an external route-change
notification by invoking its registered callback with the new route; when no
callback is registered, nothing is invoked and the Store is untouched (spec
section 6: the Router must never invoke a stale callback). -/
def notifyExternal (inst : IsRouteAction SR A) (self : RouteMiddleware SR)
    (store : StoreState A) (route : SR) : StoreState A :=
  if self.route_service.registered then callback inst store route else store

/-- `RouteStore::change_route` for `Store` (src/src/lib.rs lines 182-192):
dispatch `RouteAction::ChangeRoute(route.into())`; the `Into<SR>` conversion
is the explicit function `conv`. -/
def change_route (inst : IsRouteAction SR A) (conv : V → SR)
    (store : StoreState A) (route : V) : StoreState A :=
  store.dispatch (inst.ofRouteAction (RouteAction.ChangeRoute (conv route)))

/-- Concrete instantiation used to evaluate the model: routes are naturals and
the host Action type is `RouteAction Nat` itself. -/
def natActionImpl : IsRouteAction Nat (RouteAction Nat) :=
  ⟨id, some⟩

/-- Concrete instantiation whose host Action type (`Nat`) has only non-route
actions: `route_action` answers `none` on every action. -/
def nonRouteImpl : IsRouteAction Nat Nat :=
  ⟨fun _ => 0, fun _ => none⟩

/-- A sample Router sitting at route 0 with history `[7, 8]`. -/
def sampleRouter : RouterState Nat :=
  ⟨0, [7, 8], true⟩

/-- Sample middleware whose Router guard is free. -/
def freeMiddleware : RouteMiddleware Nat :=
  ⟨sampleRouter, false⟩

/-- Sample middleware whose Router guard is already held. -/
def heldMiddleware : RouteMiddleware Nat :=
  ⟨sampleRouter, true⟩

/-- C1: for every Route r, when `on_reduce` receives `ChangeRoute r` and the
Router guard can be acquired, `set_route` runs — the Router's current route
becomes r — and the original action is forwarded unchanged to the next reduce
stage, whose result is returned. -/
theorem changeRoute_sets_route_and_forwards_original
    (inst : IsRouteAction SR A) (self : RouteMiddleware SR) (a : A) (r : SR)
    (reduce : Option A → ρ)
    (hfree : self.borrowed = false)
    (ha : inst.route_action a = some (RouteAction.ChangeRoute r)) :
    (on_reduce inst self (some a) reduce).state.route_service.current = r ∧
    (on_reduce inst self (some a) reduce).reduceCalls = [some a] ∧
    (on_reduce inst self (some a) reduce).result = reduce (some a) := by
  simp [on_reduce, ha, RouteMiddleware.set_route, hfree, RouterState.set_route]

/-- Witness for C1 at a concrete input. -/
theorem changeRoute_sets_route_and_forwards_original_witness :
    (on_reduce natActionImpl freeMiddleware (some (RouteAction.ChangeRoute 5))
        id).state.route_service.current = 5 ∧
    (on_reduce natActionImpl freeMiddleware (some (RouteAction.ChangeRoute 5))
        id).reduceCalls = [some (RouteAction.ChangeRoute 5)] ∧
    (on_reduce natActionImpl freeMiddleware (some (RouteAction.ChangeRoute 5))
        id).result = id (some (RouteAction.ChangeRoute 5)) :=
  changeRoute_sets_route_and_forwards_original natActionImpl freeMiddleware
    (RouteAction.ChangeRoute 5) 5 id rfl rfl

/-- C2: when `on_reduce` receives `PollBrowserRoute` and the Router guard can
be acquired, the next stage receives the replacement action
`BrowserChangeRoute` carrying the Router's current route — never the original
`PollBrowserRoute` (whenever the conversion round-trips, the replacement
differs from the original) — and when the guard is held, the original action
is forwarded unchanged. -/
theorem pollBrowserRoute_replaces_or_passes_original
    (inst : IsRouteAction SR A) (self : RouteMiddleware SR) (a : A)
    (reduce : Option A → ρ)
    (ha : inst.route_action a = some RouteAction.PollBrowserRoute) :
    (self.borrowed = false →
      (on_reduce inst self (some a) reduce).reduceCalls =
        [some (inst.ofRouteAction
          (RouteAction.BrowserChangeRoute self.route_service.current))] ∧
      (on_reduce inst self (some a) reduce).result =
        reduce (some (inst.ofRouteAction
          (RouteAction.BrowserChangeRoute self.route_service.current))) ∧
      (inst.route_action (inst.ofRouteAction
          (RouteAction.BrowserChangeRoute self.route_service.current)) =
          some (RouteAction.BrowserChangeRoute self.route_service.current) →
        inst.ofRouteAction
          (RouteAction.BrowserChangeRoute self.route_service.current) ≠ a)) ∧
    (self.borrowed = true →
      (on_reduce inst self (some a) reduce).reduceCalls = [some a] ∧
      (on_reduce inst self (some a) reduce).result = reduce (some a)) := by
  constructor
  · intro hfree
    refine ⟨?_, ?_, ?_⟩
    · simp [on_reduce, ha, hfree, RouterState.get_route]
    · simp [on_reduce, ha, hfree, RouterState.get_route]
    · intro hlaw heq
      rw [heq, ha] at hlaw
      exact RouteAction.noConfusion (Option.some.injEq _ _ ▸ hlaw)
  · intro hheld
    constructor
    · simp [on_reduce, ha, hheld]
    · simp [on_reduce, ha, hheld]

/-- Witness for C2 at concrete inputs, on both the free and the held branch. -/
theorem pollBrowserRoute_replaces_or_passes_original_witness :
    ((freeMiddleware.borrowed = false →
      (on_reduce natActionImpl freeMiddleware (some RouteAction.PollBrowserRoute)
        id).reduceCalls =
        [some (natActionImpl.ofRouteAction
          (RouteAction.BrowserChangeRoute freeMiddleware.route_service.current))] ∧
      (on_reduce natActionImpl freeMiddleware (some RouteAction.PollBrowserRoute)
        id).result =
        id (some (natActionImpl.ofRouteAction
          (RouteAction.BrowserChangeRoute freeMiddleware.route_service.current))) ∧
      (natActionImpl.route_action (natActionImpl.ofRouteAction
          (RouteAction.BrowserChangeRoute freeMiddleware.route_service.current)) =
          some (RouteAction.BrowserChangeRoute freeMiddleware.route_service.current) →
        natActionImpl.ofRouteAction
          (RouteAction.BrowserChangeRoute freeMiddleware.route_service.current) ≠
          RouteAction.PollBrowserRoute)) ∧
    (freeMiddleware.borrowed = true →
      (on_reduce natActionImpl freeMiddleware (some RouteAction.PollBrowserRoute)
        id).reduceCalls = [some RouteAction.PollBrowserRoute] ∧
      (on_reduce natActionImpl freeMiddleware (some RouteAction.PollBrowserRoute)
        id).result = id (some RouteAction.PollBrowserRoute))) ∧
    ((heldMiddleware.borrowed = false →
      (on_reduce natActionImpl heldMiddleware (some RouteAction.PollBrowserRoute)
        id).reduceCalls =
        [some (natActionImpl.ofRouteAction
          (RouteAction.BrowserChangeRoute heldMiddleware.route_service.current))] ∧
      (on_reduce natActionImpl heldMiddleware (some RouteAction.PollBrowserRoute)
        id).result =
        id (some (natActionImpl.ofRouteAction
          (RouteAction.BrowserChangeRoute heldMiddleware.route_service.current))) ∧
      (natActionImpl.route_action (natActionImpl.ofRouteAction
          (RouteAction.BrowserChangeRoute heldMiddleware.route_service.current)) =
          some (RouteAction.BrowserChangeRoute heldMiddleware.route_service.current) →
        natActionImpl.ofRouteAction
          (RouteAction.BrowserChangeRoute heldMiddleware.route_service.current) ≠
          RouteAction.PollBrowserRoute)) ∧
    (heldMiddleware.borrowed = true →
      (on_reduce natActionImpl heldMiddleware (some RouteAction.PollBrowserRoute)
        id).reduceCalls = [some RouteAction.PollBrowserRoute] ∧
      (on_reduce natActionImpl heldMiddleware (some RouteAction.PollBrowserRoute)
        id).result = id (some RouteAction.PollBrowserRoute))) :=
  ⟨pollBrowserRoute_replaces_or_passes_original natActionImpl freeMiddleware
      RouteAction.PollBrowserRoute id rfl,
    pollBrowserRoute_replaces_or_passes_original natActionImpl heldMiddleware
      RouteAction.PollBrowserRoute id rfl⟩

/-- C3: when `on_reduce` receives `Back`, it runs `back` — when the guard can
be acquired this pops the most recent history entry, if any — and forwards
`none` to the next reduce stage regardless, returning its result. -/
theorem back_pops_history_and_forwards_none
    (inst : IsRouteAction SR A) (self : RouteMiddleware SR) (a : A)
    (reduce : Option A → ρ)
    (ha : inst.route_action a = some RouteAction.Back) :
    (on_reduce inst self (some a) reduce).reduceCalls = [none] ∧
    (on_reduce inst self (some a) reduce).result = reduce none ∧
    (self.borrowed = false →
      (on_reduce inst self (some a) reduce).state.route_service.history =
        self.route_service.history.tail) := by
  refine ⟨?_, ?_, ?_⟩
  · simp [on_reduce, ha]
  · simp [on_reduce, ha]
  · intro hfree
    simp only [on_reduce, ha, RouteMiddleware.back, hfree, Bool.false_eq_true,
      if_false, RouterState.back]
    cases h : self.route_service.history with
    | nil => simp [h]
    | cons x xs => simp [h]

/-- Witness for C3: non-empty history `[7, 8]` gets popped to `[8]` and `none`
is forwarded. -/
theorem back_pops_history_and_forwards_none_witness :
    (on_reduce natActionImpl freeMiddleware (some RouteAction.Back)
      id).reduceCalls = [none] ∧
    (on_reduce natActionImpl freeMiddleware (some RouteAction.Back)
      id).result = id none ∧
    (freeMiddleware.borrowed = false →
      (on_reduce natActionImpl freeMiddleware (some RouteAction.Back)
        id).state.route_service.history =
        freeMiddleware.route_service.history.tail) :=
  back_pops_history_and_forwards_none natActionImpl freeMiddleware
    RouteAction.Back id rfl

/-- C4: for every non-intercepted input — `none`, an action that is not a
route action, or a `BrowserChangeRoute` notification — `on_reduce` forwards
exactly the incoming action to the next stage, returns its result, performs no
Router mutation and logs nothing. -/
theorem passthrough_nonroute_actions
    (inst : IsRouteAction SR A) (self : RouteMiddleware SR) (action : Option A)
    (reduce : Option A → ρ)
    (h : action = none ∨ ∃ a, action = some a ∧
      (inst.route_action a = none ∨
        ∃ r, inst.route_action a = some (RouteAction.BrowserChangeRoute r))) :
    (on_reduce inst self action reduce).state = self ∧
    (on_reduce inst self action reduce).reduceCalls = [action] ∧
    (on_reduce inst self action reduce).result = reduce action ∧
    (on_reduce inst self action reduce).logs = [] := by
  rcases h with hnone | ⟨a, haction, hna | ⟨r, hbcr⟩⟩
  · subst hnone
    simp [on_reduce]
  · subst haction
    simp [on_reduce, hna]
  · subst haction
    simp [on_reduce, hbcr]

/-- Witness for C4 on all three shapes: `none`, a `BrowserChangeRoute`
notification, and (over an Action type with a non-route constructor) a
non-route action. -/
theorem passthrough_nonroute_actions_witness :
    ((on_reduce natActionImpl freeMiddleware none id).state = freeMiddleware ∧
      (on_reduce natActionImpl freeMiddleware none id).reduceCalls = [none] ∧
      (on_reduce natActionImpl freeMiddleware none id).result = id none ∧
      (on_reduce natActionImpl freeMiddleware none id).logs = []) ∧
    ((on_reduce natActionImpl freeMiddleware
        (some (RouteAction.BrowserChangeRoute 9)) id).state = freeMiddleware ∧
      (on_reduce natActionImpl freeMiddleware
        (some (RouteAction.BrowserChangeRoute 9)) id).reduceCalls =
        [some (RouteAction.BrowserChangeRoute 9)] ∧
      (on_reduce natActionImpl freeMiddleware
        (some (RouteAction.BrowserChangeRoute 9)) id).result =
        id (some (RouteAction.BrowserChangeRoute 9)) ∧
      (on_reduce natActionImpl freeMiddleware
        (some (RouteAction.BrowserChangeRoute 9)) id).logs = []) ∧
    ((on_reduce nonRouteImpl freeMiddleware (some 3) id).state =
        freeMiddleware ∧
      (on_reduce nonRouteImpl freeMiddleware (some 3) id).reduceCalls =
        [some 3] ∧
      (on_reduce nonRouteImpl freeMiddleware (some 3) id).result =
        id (some 3) ∧
      (on_reduce nonRouteImpl freeMiddleware (some 3) id).logs = []) :=
  ⟨passthrough_nonroute_actions natActionImpl freeMiddleware none id
      (Or.inl rfl),
    passthrough_nonroute_actions natActionImpl freeMiddleware
      (some (RouteAction.BrowserChangeRoute 9)) id
      (Or.inr ⟨RouteAction.BrowserChangeRoute 9, rfl, Or.inr ⟨9, rfl⟩⟩),
    passthrough_nonroute_actions nonRouteImpl freeMiddleware (some 3) id
      (Or.inr ⟨3, rfl, Or.inl rfl⟩)⟩

/-- C5: when the Router guard is already held, `set_route` mutates nothing and
logs an error, `back` returns `none` and logs an error, and the
`PollBrowserRoute` branch of `on_reduce` logs an error and falls through to
forwarding the original action unchanged; all three are total functions, so no
crash occurs. -/
theorem reentrant_access_degrades_softly
    (inst : IsRouteAction SR A) (self : RouteMiddleware SR) (a : A) (r : SR)
    (reduce : Option A → ρ)
    (hheld : self.borrowed = true)
    (ha : inst.route_action a = some RouteAction.PollBrowserRoute) :
    self.set_route r = (self, [borrowErrorLog]) ∧
    self.back = (none, self, [borrowErrorLog]) ∧
    (on_reduce inst self (some a) reduce).state = self ∧
    (on_reduce inst self (some a) reduce).reduceCalls = [some a] ∧
    (on_reduce inst self (some a) reduce).result = reduce (some a) ∧
    (on_reduce inst self (some a) reduce).logs ≠ [] := by
  refine ⟨?_, ?_, ?_, ?_, ?_, ?_⟩
  · simp [RouteMiddleware.set_route, hheld]
  · simp [RouteMiddleware.back, hheld]
  · simp [on_reduce, ha, hheld]
  · simp [on_reduce, ha, hheld]
  · simp [on_reduce, ha, hheld]
  · simp [on_reduce, ha, hheld]

/-- Witness for C5 at a concrete held-guard state. -/
theorem reentrant_access_degrades_softly_witness :
    heldMiddleware.set_route 4 = (heldMiddleware, [borrowErrorLog]) ∧
    heldMiddleware.back = (none, heldMiddleware, [borrowErrorLog]) ∧
    (on_reduce natActionImpl heldMiddleware (some RouteAction.PollBrowserRoute)
      id).state = heldMiddleware ∧
    (on_reduce natActionImpl heldMiddleware (some RouteAction.PollBrowserRoute)
      id).reduceCalls = [some RouteAction.PollBrowserRoute] ∧
    (on_reduce natActionImpl heldMiddleware (some RouteAction.PollBrowserRoute)
      id).result = id (some RouteAction.PollBrowserRoute) ∧
    (on_reduce natActionImpl heldMiddleware (some RouteAction.PollBrowserRoute)
      id).logs ≠ [] :=
  reentrant_access_degrades_softly natActionImpl heldMiddleware
    RouteAction.PollBrowserRoute 4 id rfl rfl

/-- C6: invoking the callback that `new` registers with the Router, with route
r, performs exactly one `dispatch`, whose argument is the Action obtained from
`RouteAction.BrowserChangeRoute r`. -/
theorem callback_dispatches_one_browserChangeRoute
    (inst : IsRouteAction SR A) (store : StoreState A) (r : SR) :
    (callback inst store r).dispatched =
      store.dispatched ++
        [inst.ofRouteAction (RouteAction.BrowserChangeRoute r)] := by
  simp [callback, StoreState.dispatch]

/-- C7: when exclusive access to the Router cannot be acquired at registration
time, `new` logs the condition and still returns a middleware that owns the
callback, with the Router untouched — in particular the callback stays
unregistered when the Router started unregistered. -/
theorem new_registration_failure_is_soft
    (route_service : RouterState SR)
    (hunreg : route_service.registered = false) :
    (RouteMiddleware.new route_service true).ownsCallback = true ∧
    (RouteMiddleware.new route_service true).logs ≠ [] ∧
    (RouteMiddleware.new route_service true).middleware.route_service =
      route_service ∧
    (RouteMiddleware.new route_service true).middleware.route_service.registered
      = false := by
  refine ⟨rfl, ?_, rfl, hunreg⟩
  simp [RouteMiddleware.new]

/-- Witness for C7 at a concrete unregistered Router. -/
theorem new_registration_failure_is_soft_witness :
    (RouteMiddleware.new (⟨0, [], false⟩ : RouterState Nat) true).ownsCallback
      = true ∧
    (RouteMiddleware.new (⟨0, [], false⟩ : RouterState Nat) true).logs ≠ [] ∧
    (RouteMiddleware.new (⟨0, [], false⟩ : RouterState Nat)
      true).middleware.route_service = ⟨0, [], false⟩ ∧
    (RouteMiddleware.new (⟨0, [], false⟩ : RouterState Nat)
      true).middleware.route_service.registered = false :=
  new_registration_failure_is_soft (⟨0, [], false⟩ : RouterState Nat) rfl

/-- C8: after the middleware is dropped, its callback registration is removed
from the Router, so a subsequent external route-change notification never
dispatches anything on the Store. -/
theorem drop_deregisters_callback
    (inst : IsRouteAction SR A) (self : RouteMiddleware SR)
    (store : StoreState A) (r : SR) :
    notifyExternal inst self.drop store r = store := by
  simp [notifyExternal, RouteMiddleware.drop]

/-- C9: on every input — any `Option A`, any route-action variant, on both the
access-success and the access-failure branch — `on_reduce` invokes the reduce
continuation exactly once and returns that invocation's result unchanged. -/
theorem on_reduce_calls_reduce_exactly_once
    (inst : IsRouteAction SR A) (self : RouteMiddleware SR) (action : Option A)
    (reduce : Option A → ρ) :
    ∃ x, (on_reduce inst self action reduce).reduceCalls = [x] ∧
      (on_reduce inst self action reduce).result = reduce x := by
  cases action with
  | none => exact ⟨none, rfl, rfl⟩
  | some a =>
    rcases hra : inst.route_action a with _ | ra
    · exact ⟨some a, by simp [on_reduce, hra], by simp [on_reduce, hra]⟩
    · cases ra with
      | Back => exact ⟨none, by simp [on_reduce, hra], by simp [on_reduce, hra]⟩
      | ChangeRoute route =>
        exact ⟨some a, by simp [on_reduce, hra], by simp [on_reduce, hra]⟩
      | BrowserChangeRoute route =>
        exact ⟨some a, by simp [on_reduce, hra], by simp [on_reduce, hra]⟩
      | PollBrowserRoute =>
        by_cases hb : self.borrowed
        · exact ⟨some a, by simp [on_reduce, hra, hb], by simp [on_reduce, hra, hb]⟩
        · exact ⟨some (inst.ofRouteAction (RouteAction.BrowserChangeRoute
              self.route_service.get_route)),
            by simp [on_reduce, hra, hb], by simp [on_reduce, hra, hb]⟩

/-- C10: `change_route` performs exactly one `dispatch`, whose argument is the
Action obtained from `RouteAction.ChangeRoute` of the converted route, and
touches nothing else of the Store's trace. -/
theorem change_route_dispatches_one_changeRoute
    (inst : IsRouteAction SR A) (conv : V → SR) (store : StoreState A)
    (route : V) :
    (change_route inst conv store route).dispatched =
      store.dispatched ++
        [inst.ofRouteAction (RouteAction.ChangeRoute (conv route))] := by
  simp [change_route, StoreState.dispatch]

end SwitchRouterMiddleware
